import Mathlib

/-!
Shallow embedding of the drilling risk-prediction engine
(`src/ml_agents/*.py`, `src/orchestrator.py`, `src/data_processor.py`,
`src/config_manager.py`) over exact rational arithmetic.

Conventions used throughout:
* Python floats are modelled as `ℚ`; every comparison, clamp and weighted
  combination in the source is exact rational arithmetic here.
* A processed drilling-data dictionary becomes the `Reading` structure;
  a key that may be missing from the dictionary becomes an `Option` field,
  and Python's `dict.get(k, default)` becomes `Option.getD`.
* `np.std` computes a square root, which has no rational value; the agents
  that call it take an explicit `npStd : List ℚ → ℚ` argument, and every
  theorem below holds for every implementation of it.
* `np.random.uniform(0.85, 1.05)` inside the washout agent is modelled by an
  explicit `rng : ℚ` argument: the value the ambient random generator
  produces during the call.
* `datetime.now()` timestamps are not part of any claim and are omitted from
  agent results; the orchestrator's timestamp string is an explicit argument.
* The `try/except` wrapper of each agent's `predict` is modelled by
  `AgentInput`: `valid r` is a well-formed processed reading, `malformed` is
  any input that makes the Python body raise, and the `except` branch of the
  source becomes the result returned on `malformed`.
-/

/-- Time-series window of a processed reading: `drilling_data['time_series']`.
Each parameter key that may be absent from the dictionary is an `Option`. -/
structure TimeSeries where
  WOB : Option (List ℚ)
  RPM : Option (List ℚ)
  Torque : Option (List ℚ)
  SPP : Option (List ℚ)
  ECD : Option (List ℚ)
deriving DecidableEq

/-- A processed drilling-data dictionary as consumed by the agents and by
`process_data`.  Fields are the keys the source reads; `none` models an
absent key. -/
structure Reading where
  WOB : Option ℚ
  Torque : Option ℚ
  RPM : Option ℚ
  ROP : Option ℚ
  SPP : Option ℚ
  Flow_Rate : Option ℚ
  ECD : Option ℚ
  depth : Option ℚ
  Hook_Load : Option ℚ
  Drag_Factor : Option ℚ
  RPM_std : Option ℚ
  WOB_std : Option ℚ
  differential_pressure : Option ℚ
  hole_cleaning_index : Option ℚ
  time_series : Option TimeSeries
deriving DecidableEq

/-- The reading whose dictionary has no keys at all: every `get` falls back
to its default. -/
def emptyReading : Reading :=
  ⟨none, none, none, none, none, none, none, none, none, none, none, none,
   none, none, none⟩

/-- Result dictionary returned by a risk agent's `predict`.
`issue_type` is only set by the washout/mud-losses agent (`none` models the
key being absent).  The `timestamp` key of the source is omitted (wall-clock
time, not part of any claim). -/
structure AgentResult where
  probability : ℚ
  contributing_factors : List String
  issue_type : Option String
  recommendations : List String
deriving DecidableEq

/-- Input to an agent's `predict` call.  `valid r` is a processed reading;
`malformed` stands for any argument that makes the Python body raise, sending
control to the `except Exception` branch. -/
inductive AgentInput where
  | valid : Reading → AgentInput
  | malformed : AgentInput
deriving DecidableEq

/-- Python `xs[-n:]`: the last `n` elements (the whole list when shorter). -/
def lastN (xs : List ℚ) (n : Nat) : List ℚ := xs.drop (xs.length - n)

/-- `np.mean` over a rational list (only ever applied to nonempty lists in
the source; division by zero follows Lean's `x / 0 = 0` convention). -/
def npMean (xs : List ℚ) : ℚ := xs.sum / (xs.length : ℚ)

/-- `np.diff`: differences of consecutive elements. -/
def npDiff : List ℚ → List ℚ
  | [] => []
  | [_] => []
  | a :: b :: t => (b - a) :: npDiff (b :: t)

/-- Python `min(xs)` on a nonempty list (`0` on the empty list, which the
source never reaches). -/
def listMin : List ℚ → ℚ
  | [] => 0
  | h :: t => t.foldl min h

namespace MechanicalStickingAgent

/-- Feature 1 (`mechanical_sticking.py` lines 50-53):
`min(1.0, (torque / max(1, wob)) / 0.45)`. -/
def torqueFeature (r : Reading) : ℚ :=
  min 1 ((r.Torque.getD 0 / max 1 (r.WOB.getD 0)) / (45/100))

/-- Feature 2 (lines 55-57): `min(1.0, drag_factor / 1.3)` with
`drag_factor = drilling_data.get('Drag_Factor', 1.0)`. -/
def dragFeature (r : Reading) : ℚ :=
  min 1 (r.Drag_Factor.getD 1 / (13/10))

/-- Feature 3 (lines 59-66): mean of the clamped RPM and WOB standard
deviations, thresholds 2.5 and 1.2. -/
def fluctuationFeature (r : Reading) : ℚ :=
  (min 1 (r.RPM_std.getD 0 / (5/2)) + min 1 (r.WOB_std.getD 0 / (6/5))) / 2

/-- Feature 4 (lines 68-89): trend of the torque/WOB ratio over the last 10
time-series samples.  `np.where(w < 0.1, 0.1, w)` guards the division and the
elementwise quotient of the two equal-length windows is `zipWith (/)`. -/
def historicalFeature (r : Reading) : ℚ :=
  match r.time_series with
  | none => 0
  | some ts =>
    match ts.Torque, ts.WOB with
    | some torqueSeries, some wobSeries =>
      if torqueSeries.length > 10 then
        let recentTorque := lastN torqueSeries 10
        let recentWob := (lastN wobSeries 10).map
          (fun w => if w < 1/10 then 1/10 else w)
        let recentRatio := List.zipWith (fun a b => a / b) recentTorque recentWob
        if recentRatio.length > 5 then
          let earlyAvg := npMean (recentRatio.take 5)
          let lateAvg := npMean (lastN recentRatio 5)
          let trendFactor := if earlyAvg > 0 then (lateAvg - earlyAvg) / earlyAvg else 0
          min 1 (max 0 (trendFactor * 5))
        else 0
      else 0
    | _, _ => 0

/-- Weighted combination of the four features (lines 92-97), weights
0.25 / 0.25 / 0.2 / 0.3 from `model_parameters`. -/
def weightedSum (r : Reading) : ℚ :=
  (25/100) * torqueFeature r + (25/100) * dragFeature r +
  (20/100) * fluctuationFeature r + (30/100) * historicalFeature r

/-- Contributing factors (lines 102-115): one string per feature above 0.6. -/
def contributingFactors (r : Reading) : List String :=
  (if torqueFeature r > 3/5 then ["High torque to WOB ratio"] else []) ++
  (if dragFeature r > 3/5 then ["Elevated drag factor"] else []) ++
  (if fluctuationFeature r > 3/5 then ["Significant RPM and WOB fluctuations"] else []) ++
  (if historicalFeature r > 3/5 then ["Worsening trend in torque/WOB ratio"] else [])

/-- Translation of `_generate_recommendations` (lines 140-172). -/
def generateRecommendations (probability : ℚ) (factors : List String) : List String :=
  if probability < 3/10 then
    ["Continue normal operations", "Monitor torque and drag trends"]
  else if probability < 7/10 then
    "Reduce WOB and RPM temporarily" ::
    "Perform controlled back-reaming to clean the wellbore" ::
    ((if "High torque to WOB ratio" ∈ factors then
        ["Consider adding lubricant to drilling fluid"] else []) ++
     (if "Elevated drag factor" ∈ factors then
        ["Perform wiper trips to ensure wellbore is clean"] else []))
  else
    "Stop drilling and work pipe up and down" ::
    "Reduce drilling parameters to minimum" ::
    "Circulate to clean wellbore" ::
    ((if "Worsening trend in torque/WOB ratio" ∈ factors then
        ["Prepare contingency plan for stuck pipe"] else []) ++
     (if "Significant RPM and WOB fluctuations" ∈ factors then
        ["Check for tight spots through controlled movement"] else []))

/-- Body of the `try` block of `MechanicalStickingAgent.predict`
(lines 43-129): clamp the weighted combination to `[0,1]`, collect the
contributing factors and recommendations. -/
def body (r : Reading) : AgentResult :=
  let probability := min 1 (max 0 (weightedSum r))
  let factors := contributingFactors r
  { probability := probability
    contributing_factors := factors
    issue_type := none
    recommendations := generateRecommendations probability factors }

/-- Result of the `except Exception` branch (lines 131-138). -/
def errorResult : AgentResult :=
  { probability := 0
    contributing_factors := ["Error in prediction model"]
    issue_type := none
    recommendations := ["Check system logs for errors"] }

/-- `MechanicalStickingAgent.predict`: the `try` body on a well-formed
reading, the `except` fallback on an input that makes the body raise. -/
def predict : AgentInput → AgentResult
  | .valid r => body r
  | .malformed => errorResult

end MechanicalStickingAgent

namespace DifferentialStickingAgent

/-- Number of consecutive low-RPM (< 5) readings at the end of the window:
the loop of `differential_sticking.py` lines 61-67 resets the count whenever
rotation is detected. -/
def stationaryCount (xs : List ℚ) : Nat :=
  xs.foldl (fun c v => if v < 5 then c + 1 else 0) 0

/-- Feature 1 (`differential_sticking.py` lines 48-50):
`min(1.0, differential_pressure / 600)`. -/
def diffPressureFeature (r : Reading) : ℚ :=
  min 1 (r.differential_pressure.getD 0 / 600)

/-- Feature 2 (lines 52-71): consecutive near-zero-RPM samples among the
last 10, read as minutes and normalised against the 15-minute threshold. -/
def stationaryFeature (r : Reading) : ℚ :=
  match r.time_series with
  | none => 0
  | some ts =>
    match ts.RPM with
    | none => 0
    | some rpmSeries =>
      if rpmSeries.length > 5 then
        min 1 ((stationaryCount (lastN rpmSeries 10) : ℚ) / 15)
      else 0

/-- Feature 3 (lines 73-76): constant default medium risk 0.5. -/
def wellboreFeature : ℚ := 1/2

/-- The flow-rate part of feature 4 (lines 80-86): `0` unless
`flow_rate > 0`, else `min(1.0, 500 / flow_rate) * 0.7`. -/
def flowCakeBase (r : Reading) : ℚ :=
  if r.Flow_Rate.getD 0 > 0 then min 1 (500 / r.Flow_Rate.getD 0) * (7/10) else 0

/-- Feature 4 (lines 78-91): the flow-rate part, raised to the ECD factor
`min(1.0, (ecd - 10) / 4)` when `ecd > 10` (default ECD 12.5). -/
def filterCakeFeature (r : Reading) : ℚ :=
  let base := flowCakeBase r
  if r.ECD.getD (25/2) > 10
  then max base (min 1 ((r.ECD.getD (25/2) - 10) / 4))
  else base

/-- Weighted combination (lines 93-99), weights 0.35 / 0.25 / 0.15 / 0.25. -/
def weightedSum (r : Reading) : ℚ :=
  (35/100) * diffPressureFeature r + (25/100) * stationaryFeature r +
  (15/100) * wellboreFeature + (25/100) * filterCakeFeature r

/-- Contributing factors (lines 104-117); note the differing cutoffs 0.6 /
0.5 / 0.7 / 0.6 of the source. -/
def contributingFactors (r : Reading) : List String :=
  (if diffPressureFeature r > 3/5 then ["High differential pressure"] else []) ++
  (if stationaryFeature r > 1/2 then ["Extended stationary time"] else []) ++
  (if wellboreFeature > 7/10 then ["High wellbore inclination"] else []) ++
  (if filterCakeFeature r > 3/5 then ["Significant filter cake buildup potential"] else [])

/-- Translation of `_generate_recommendations` (lines 142-176). -/
def generateRecommendations (probability : ℚ) (factors : List String) : List String :=
  if probability < 3/10 then
    ["Continue normal operations", "Monitor ECD and differential pressure"]
  else if probability < 7/10 then
    "Reduce stationary time" ::
    "Maintain pipe movement when circulation is stopped" ::
    ((if "High differential pressure" ∈ factors then
        ["Consider reducing mud weight if safe to do so"] else []) ++
     (if "Significant filter cake buildup potential" ∈ factors then
        ["Increase flow rate to reduce filter cake buildup",
         "Consider adjusting drilling fluid properties"] else []))
  else
    "Implement continuous pipe rotation" ::
    "Minimize connections and stationary time" ::
    "Monitor torque closely for early signs of sticking" ::
    ((if "High differential pressure" ∈ factors then
        ["Optimize mud weight to minimize differential pressure",
         "Consider managed pressure drilling techniques"] else []) ++
     (if "Extended stationary time" ∈ factors then
        ["Implement work pipe protocol during connections"] else []))

/-- Body of the `try` block of `DifferentialStickingAgent.predict`
(lines 41-131). -/
def body (r : Reading) : AgentResult :=
  let probability := min 1 (max 0 (weightedSum r))
  let factors := contributingFactors r
  { probability := probability
    contributing_factors := factors
    issue_type := none
    recommendations := generateRecommendations probability factors }

/-- Result of the `except Exception` branch (lines 133-140). -/
def errorResult : AgentResult :=
  { probability := 0
    contributing_factors := ["Error in prediction model"]
    issue_type := none
    recommendations := ["Check system logs for errors"] }

/-- `DifferentialStickingAgent.predict`. -/
def predict : AgentInput → AgentResult
  | .valid r => body r
  | .malformed => errorResult

end DifferentialStickingAgent

namespace HoleCleaningAgent

/-- ROP-to-flow ratio (`hole_cleaning.py` line 53):
`(rop/100) / (flow_rate/600)` when `flow_rate > 0`, else the fallback 1.0. -/
def ropFlowRatio (r : Reading) : ℚ :=
  if r.Flow_Rate.getD 0 > 0
  then (r.ROP.getD 0 / 100) / (r.Flow_Rate.getD 0 / 600)
  else 1

/-- Feature 1 (lines 51-54): `min(1.0, rop_flow_ratio / 0.15)`. -/
def ropFlowFeature (r : Reading) : ℚ :=
  min 1 (ropFlowRatio r / (15/100))

/-- Feature 2 (lines 56-68): clamped increase of the mean of the last five
ECD samples over the mean of the first five, threshold 0.3 ppg. -/
def ecdFeature (r : Reading) : ℚ :=
  match r.time_series with
  | none => 0
  | some ts =>
    match ts.ECD with
    | none => 0
    | some ecdSeries =>
      if ecdSeries.length > 10 then
        max 0 (min 1 ((npMean (lastN ecdSeries 5) - npMean (ecdSeries.take 5)) / (3/10)))
      else 0

/-- Feature 3 (lines 70-78): standard deviation of the last 10 SPP samples
against the 150 psi threshold.  `npStd` models `np.std`. -/
def pressureFeature (npStd : List ℚ → ℚ) (r : Reading) : ℚ :=
  match r.time_series with
  | none => 0
  | some ts =>
    match ts.SPP with
    | none => 0
    | some sppSeries =>
      if sppSeries.length > 10 then
        min 1 (npStd (lastN sppSeries 10) / 150)
      else 0

/-- Feature 4 (lines 80-93): clamped percentage increase of the mean torque,
threshold 20 percent; `0` when the early average is not positive. -/
def torqueFeature (r : Reading) : ℚ :=
  match r.time_series with
  | none => 0
  | some ts =>
    match ts.Torque with
    | none => 0
    | some torqueSeries =>
      if torqueSeries.length > 10 then
        let earlyAvg := npMean (torqueSeries.take 5)
        let lateAvg := npMean (lastN torqueSeries 5)
        if earlyAvg > 0 then
          max 0 (min 1 ((100 * (lateAvg - earlyAvg) / earlyAvg) / 20))
        else 0
      else 0

/-- Feature 5 (lines 95-97): `min(1.0, max(0.0, (hole_cleaning_index - 1.0) * 2))`
with default index 1.0. -/
def historicalFeature (r : Reading) : ℚ :=
  min 1 (max 0 ((r.hole_cleaning_index.getD 1 - 1) * 2))

/-- Weighted combination (lines 99-106), weights
0.25 / 0.25 / 0.2 / 0.15 / 0.15. -/
def weightedSum (npStd : List ℚ → ℚ) (r : Reading) : ℚ :=
  (25/100) * ropFlowFeature r + (25/100) * ecdFeature r +
  (20/100) * pressureFeature npStd r + (15/100) * torqueFeature r +
  (15/100) * historicalFeature r

/-- Contributing factors (lines 111-127). -/
def contributingFactors (npStd : List ℚ → ℚ) (r : Reading) : List String :=
  (if ropFlowFeature r > 3/5 then ["High ROP relative to flow rate"] else []) ++
  (if ecdFeature r > 3/5 then ["Increasing ECD trend"] else []) ++
  (if pressureFeature npStd r > 3/5 then ["Significant pressure fluctuations"] else []) ++
  (if torqueFeature r > 3/5 then ["Increasing torque trend"] else []) ++
  (if historicalFeature r > 3/5 then ["Poor hole cleaning efficiency"] else [])

/-- Translation of `_generate_recommendations` (lines 152-192). -/
def generateRecommendations (probability : ℚ) (factors : List String) : List String :=
  if probability < 3/10 then
    ["Continue normal operations", "Monitor ECD and cuttings returns"]
  else if probability < 7/10 then
    "Perform pumps-off flow check" ::
    "Consider wiper trips to clean the wellbore" ::
    ((if "High ROP relative to flow rate" ∈ factors then
        ["Reduce ROP or increase flow rate"] else []) ++
     (if "Increasing ECD trend" ∈ factors then
        ["Monitor for pressure spikes during connections"] else []) ++
     (if "Poor hole cleaning efficiency" ∈ factors then
        ["Optimize drilling fluid properties",
         "Increase annular velocity if possible"] else []))
  else
    "Stop drilling and circulate bottoms up" ::
    "Perform wiper trips with high flow rates" ::
    "Monitor ECD closely" ::
    ((if "Significant pressure fluctuations" ∈ factors then
        ["Check for packoff indications"] else []) ++
     (if "Increasing torque trend" ∈ factors then
        ["Work pipe with high flow rates to clean wellbore",
         "Consider modifying mud rheology to improve cutting transport"] else []) ++
     (if "High ROP relative to flow rate" ∈ factors then
        ["Significantly reduce ROP until hole cleaning improves"] else []))

/-- Body of the `try` block of `HoleCleaningAgent.predict` (lines 42-141). -/
def body (npStd : List ℚ → ℚ) (r : Reading) : AgentResult :=
  let probability := min 1 (max 0 (weightedSum npStd r))
  let factors := contributingFactors npStd r
  { probability := probability
    contributing_factors := factors
    issue_type := none
    recommendations := generateRecommendations probability factors }

/-- Result of the `except Exception` branch (lines 143-150). -/
def errorResult : AgentResult :=
  { probability := 0
    contributing_factors := ["Error in prediction model"]
    issue_type := none
    recommendations := ["Check system logs for errors"] }

/-- `HoleCleaningAgent.predict`. -/
def predict (npStd : List ℚ → ℚ) : AgentInput → AgentResult
  | .valid r => body npStd r
  | .malformed => errorResult

end HoleCleaningAgent

namespace WashoutMudLossesAgent

/-- Feature 1 (`washout_mud_losses.py` lines 46-59): largest drop below
-50 psi among consecutive differences of the last 10 SPP samples, normalised
against the 200 psi threshold. -/
def pressureDropFeature (r : Reading) : ℚ :=
  match r.time_series with
  | none => 0
  | some ts =>
    match ts.SPP with
    | none => 0
    | some sppSeries =>
      if sppSeries.length > 10 then
        let drops := (npDiff (lastN sppSeries 10)).filter (fun d => d < -50)
        if drops ≠ [] then min 1 (|listMin drops| / 200) else 0
      else 0

/-- Feature 2 (lines 61-71): the simulated return-flow ratio `rng` is the
value `np.random.uniform(0.85, 1.05)` produces during the call; a ratio below
the 0.9 threshold signals losses. -/
def flowReturnFeature (rng : ℚ) : ℚ :=
  if rng < 9/10 then min 1 ((9/10 - rng) * 10) else 0

/-- Feature 3 (lines 73-88): number of width-5 windows of the SPP series with
standard deviation above 50, normalised against the 3-spike threshold. -/
def pressureAnomalyFeature (npStd : List ℚ → ℚ) (r : Reading) : ℚ :=
  match r.time_series with
  | none => 0
  | some ts =>
    match ts.SPP with
    | none => 0
    | some sppSeries =>
      if sppSeries.length > 15 then
        let stdValues := (List.range (sppSeries.length - 5)).map
          (fun i => npStd ((sppSeries.drop i).take 5))
        min 1 (((stdValues.filter (fun s => s > 50)).length : ℚ) / 3)
      else 0

/-- Feature 4 (lines 90-98): standard deviation of the last 10 torque
samples against the 2.0 threshold. -/
def torqueFluctuationFeature (npStd : List ℚ → ℚ) (r : Reading) : ℚ :=
  match r.time_series with
  | none => 0
  | some ts =>
    match ts.Torque with
    | none => 0
    | some torqueSeries =>
      if torqueSeries.length > 10 then
        min 1 (npStd (lastN torqueSeries 10) / 2)
      else 0

/-- Weighted combination (lines 100-106), weights 0.3 / 0.3 / 0.2 / 0.2. -/
def weightedSum (npStd : List ℚ → ℚ) (rng : ℚ) (r : Reading) : ℚ :=
  (30/100) * pressureDropFeature r + (30/100) * flowReturnFeature rng +
  (20/100) * pressureAnomalyFeature npStd r +
  (20/100) * torqueFluctuationFeature npStd r

/-- Contributing factors (lines 111-124). -/
def contributingFactors (npStd : List ℚ → ℚ) (rng : ℚ) (r : Reading) : List String :=
  (if pressureDropFeature r > 3/5 then ["Significant standpipe pressure drops"] else []) ++
  (if flowReturnFeature rng > 3/5 then ["Reduced fluid returns"] else []) ++
  (if pressureAnomalyFeature npStd r > 3/5 then ["Erratic pressure behavior"] else []) ++
  (if torqueFluctuationFeature npStd r > 3/5 then ["Unusual torque fluctuations"] else [])

/-- Issue classification (lines 126-129): mud losses when the flow-return
feature exceeds the pressure-drop feature, washout otherwise. -/
def issueType (rng : ℚ) (r : Reading) : String :=
  if flowReturnFeature rng > pressureDropFeature r then "Mud Losses" else "Washout"

/-- Translation of `_generate_recommendations` (lines 161-213). -/
def generateRecommendations (probability : ℚ) (factors : List String)
    (issue : String) : List String :=
  if probability < 3/10 then
    "Continue normal operations" ::
    (if issue = "Washout"
     then ["Monitor standpipe pressure for unexpected changes"]
     else ["Monitor flow returns and pit volumes"])
  else if probability < 7/10 then
    if issue = "Washout" then
      "Check drill string connection integrity" ::
      "Monitor pressure trends carefully" ::
      ((if "Unusual torque fluctuations" ∈ factors then
          ["Check for bottom hole assembly issues"] else []) ++
       (if "Erratic pressure behavior" ∈ factors then
          ["Consider flow tests to isolate pressure anomalies"] else []))
    else
      "Monitor pit volumes closely" ::
      "Perform flow checks to verify losses" ::
      (if "Reduced fluid returns" ∈ factors then
         ["Prepare lost circulation material",
          "Consider reducing mud weight if safe to do so"] else [])
  else
    if issue = "Washout" then
      "Stop drilling and perform flow checks" ::
      "Prepare to trip out if washout confirmed" ::
      ((if "Significant standpipe pressure drops" ∈ factors then
          ["Monitor for additional pressure decreases",
           "Verify BHA component integrity"] else []) ++
       (if "Erratic pressure behavior" ∈ factors then
          ["Isolate pressure fluctuations through systematic testing"] else []))
    else
      "Stop drilling and assess loss severity" ::
      "Activate lost circulation protocol" ::
      "Consider spotting lost circulation material" ::
      (if "Reduced fluid returns" ∈ factors then
         ["Evaluate need for blind/controlled drilling procedures",
          "Monitor for well control concerns due to losses"] else [])

/-- Body of the `try` block of `WashoutMudLossesAgent.predict`
(lines 40-149). -/
def body (npStd : List ℚ → ℚ) (rng : ℚ) (r : Reading) : AgentResult :=
  let probability := min 1 (max 0 (weightedSum npStd rng r))
  let factors := contributingFactors npStd rng r
  let issue := issueType rng r
  { probability := probability
    contributing_factors := factors
    issue_type := some issue
    recommendations := generateRecommendations probability factors issue }

/-- Result of the `except Exception` branch (lines 151-159): unlike the other
agents it also reports `issue_type = "Unknown"`. -/
def errorResult : AgentResult :=
  { probability := 0
    contributing_factors := ["Error in prediction model"]
    issue_type := some "Unknown"
    recommendations := ["Check system logs for errors"] }

/-- `WashoutMudLossesAgent.predict`. -/
def predict (npStd : List ℚ → ℚ) (rng : ℚ) : AgentInput → AgentResult
  | .valid r => body npStd rng r
  | .malformed => errorResult

end WashoutMudLossesAgent

/-- The four risk-agent results of one polling cycle (`app.py`
lines 108-111). -/
structure CycleResults where
  mechanical_sticking : AgentResult
  differential_sticking : AgentResult
  hole_cleaning : AgentResult
  washout_mud_losses : AgentResult
deriving DecidableEq

/-- One cycle of risk predictions (`app.py` lines 108-111): each agent is
invoked on its own input, so a fault injected into one call (`malformed`)
cannot influence the others.  `rng` is the ambient random-generator value
consumed only by the washout agent. -/
def runAgents (npStd : List ℚ → ℚ) (rng : ℚ)
    (mechIn diffIn holeIn washIn : AgentInput) : CycleResults :=
  { mechanical_sticking := MechanicalStickingAgent.predict mechIn
    differential_sticking := DifferentialStickingAgent.predict diffIn
    hole_cleaning := HoleCleaningAgent.predict npStd holeIn
    washout_mud_losses := WashoutMudLossesAgent.predict npStd rng washIn }

/-- Per-agent alert thresholds (`thresholds` argument of
`evaluate_predictions`). -/
structure Thresholds where
  mechanical_sticking : ℚ
  differential_sticking : ℚ
  hole_cleaning : ℚ
  washout_mud_losses : ℚ
deriving DecidableEq

/-- The `recommended_parameters` sub-dictionary of the ROP-optimization
result; each key may be absent. -/
structure RecommendedParameters where
  WOB : Option ℚ
  RPM : Option ℚ
  Flow_Rate : Option ℚ
deriving DecidableEq

/-- ROP-optimization result as read by `get_recommendations`: every key it
accesses may be absent. -/
structure RopResult where
  recommended_parameters : Option RecommendedParameters
  expected_rop_improvement : Option ℚ
  explanations : Option (List String)
deriving DecidableEq

/-- The `predictions` dictionary passed to the orchestrator (`app.py`
lines 108-112): one entry per agent, `none` modelling a `None` value. -/
structure Predictions where
  mechanical_sticking : Option AgentResult
  differential_sticking : Option AgentResult
  hole_cleaning : Option AgentResult
  washout_mud_losses : Option AgentResult
  rop_optimization : Option RopResult
deriving DecidableEq

/-- Alert dictionary built by `evaluate_predictions`; `probability` is the
formatted (`"{p:.2f}"`) string of the source. -/
structure Alert where
  timestamp : String
  type : String
  severity : String
  probability : String
  message : String
  recommendation : String
deriving DecidableEq

/-- Severity tiering repeated verbatim for every agent in
`orchestrator.py` (lines 31-37, 58-64, 85-91, 112-118). -/
def severityOf (p : ℚ) : String :=
  if p ≥ 8/10 then "HIGH" else if p ≥ 6/10 then "MEDIUM" else "LOW"

/-- One agent's block of `evaluate_predictions` (e.g. lines 26-50): skip a
`None` prediction, compare `probability >= threshold`, and build the alert.
`fmt2` models Python's `"{p:.2f}"` float formatting, `ts` the cycle
timestamp string. -/
def riskAlertBlock (fmt2 : ℚ → String) (ts : String)
    (alertType msgHead : String)
    (pred : Option AgentResult) (threshold : ℚ) : List Alert :=
  match pred with
  | none => []
  | some res =>
    if res.probability ≥ threshold then
      [{ timestamp := ts
         type := alertType
         severity := severityOf res.probability
         probability := fmt2 res.probability
         message := msgHead ++ " (" ++ fmt2 res.probability ++
           "). Contributing factors: " ++
           String.intercalate ", " res.contributing_factors
         recommendation := res.recommendations.headD "No specific recommendation" }]
    else []

/-- Mechanical-sticking block of `evaluate_predictions` (lines 26-50). -/
def mechanicalAlerts (fmt2 : ℚ → String) (ts : String)
    (pred : Option AgentResult) (threshold : ℚ) : List Alert :=
  riskAlertBlock fmt2 ts "Mechanical Sticking Risk"
    "Mechanical sticking risk detected" pred threshold

/-- Differential-sticking block of `evaluate_predictions` (lines 52-77). -/
def differentialAlerts (fmt2 : ℚ → String) (ts : String)
    (pred : Option AgentResult) (threshold : ℚ) : List Alert :=
  riskAlertBlock fmt2 ts "Differential Sticking Risk"
    "Differential sticking risk detected" pred threshold

/-- Hole-cleaning block of `evaluate_predictions` (lines 79-104). -/
def holeCleaningAlerts (fmt2 : ℚ → String) (ts : String)
    (pred : Option AgentResult) (threshold : ℚ) : List Alert :=
  riskAlertBlock fmt2 ts "Hole Cleaning Risk"
    "Hole cleaning issue detected" pred threshold

/-- Washout/mud-losses block of `evaluate_predictions` (lines 106-133): the
alert type and message are built from
`predictions['washout_mud_losses'].get('issue_type', 'Washout/Mud Losses')`. -/
def washoutAlerts (fmt2 : ℚ → String) (ts : String)
    (pred : Option AgentResult) (threshold : ℚ) : List Alert :=
  match pred with
  | none => []
  | some res =>
    if res.probability ≥ threshold then
      [{ timestamp := ts
         type := res.issue_type.getD "Washout/Mud Losses" ++ " Risk"
         severity := severityOf res.probability
         probability := fmt2 res.probability
         message := res.issue_type.getD "Washout/Mud Losses" ++
           " risk detected (" ++ fmt2 res.probability ++
           "). Contributing factors: " ++
           String.intercalate ", " res.contributing_factors
         recommendation := res.recommendations.headD "No specific recommendation" }]
    else []

/-- `evaluate_predictions(predictions, thresholds)` (`orchestrator.py`
lines 9-139): the four per-agent blocks in source order. -/
def evaluatePredictions (fmt2 : ℚ → String) (ts : String)
    (preds : Predictions) (thresholds : Thresholds) : List Alert :=
  mechanicalAlerts fmt2 ts preds.mechanical_sticking thresholds.mechanical_sticking ++
  differentialAlerts fmt2 ts preds.differential_sticking thresholds.differential_sticking ++
  holeCleaningAlerts fmt2 ts preds.hole_cleaning thresholds.hole_cleaning ++
  washoutAlerts fmt2 ts preds.washout_mud_losses thresholds.washout_mud_losses

/-- Entry of the `critical_issues` list of `get_recommendations`
(lines 159-192). -/
structure CriticalIssue where
  ctype : String
  probability : ℚ
  recommendations : List String
  issue_type : Option String
deriving DecidableEq

/-- Recommendation entry built by `get_recommendations`; moderate-risk
entries carry no `expected_benefits` key (`none`). -/
structure Recommendation where
  category : String
  title : String
  impact_level : String
  description : String
  action_items : List String
  expected_benefits : Option (List String)
deriving DecidableEq

/-- The `critical_issues` list (lines 159-192): one entry per risk agent
with probability ≥ 0.7, in source order. -/
def criticalIssues (m d h w : AgentResult) : List CriticalIssue :=
  (if m.probability ≥ 7/10 then
     [{ ctype := "mechanical_sticking", probability := m.probability,
        recommendations := m.recommendations, issue_type := none }] else []) ++
  (if d.probability ≥ 7/10 then
     [{ ctype := "differential_sticking", probability := d.probability,
        recommendations := d.recommendations, issue_type := none }] else []) ++
  (if h.probability ≥ 7/10 then
     [{ ctype := "hole_cleaning", probability := h.probability,
        recommendations := h.recommendations, issue_type := none }] else []) ++
  (if w.probability ≥ 7/10 then
     [{ ctype := "washout_mud_losses", probability := w.probability,
        recommendations := w.recommendations,
        issue_type := some (w.issue_type.getD "Washout/Mud Losses") }] else [])

/-- Python's stable `list.sort(key=probability, reverse=True)` (line 196). -/
def sortByProbabilityDesc (issues : List CriticalIssue) : List CriticalIssue :=
  issues.mergeSort (fun a b => decide (b.probability ≤ a.probability))

/-- The if/elif chain of the critical-issue loop (lines 198-265); an issue
type outside the four known ones appends nothing. -/
def criticalIssueRecs (issue : CriticalIssue) : List Recommendation :=
  if issue.ctype = "mechanical_sticking" then
    [{ category := "Mechanical Sticking"
       title := "Critical Risk of Mechanical Sticking"
       impact_level := "High"
       description := "Immediate action required to prevent mechanical sticking, which could lead to significant non-productive time."
       action_items := issue.recommendations
       expected_benefits := some ["Prevent stuck pipe incident",
         "Avoid fishing operations", "Reduce non-productive time"] }]
  else if issue.ctype = "differential_sticking" then
    [{ category := "Differential Sticking"
       title := "Critical Risk of Differential Sticking"
       impact_level := "High"
       description := "Immediate action required to prevent differential sticking due to pressure imbalance, which could lead to stuck pipe."
       action_items := issue.recommendations
       expected_benefits := some ["Prevent differential sticking incident",
         "Maintain well control", "Avoid costly drilling interruptions"] }]
  else if issue.ctype = "hole_cleaning" then
    [{ category := "Hole Cleaning"
       title := "Critical Hole Cleaning Issue Detected"
       impact_level := "High"
       description := "Immediate action required to improve hole cleaning and prevent packoff or stuck pipe scenarios."
       action_items := issue.recommendations
       expected_benefits := some ["Prevent packoff incidents",
         "Improve cuttings transport", "Reduce risk of stuck pipe"] }]
  else if issue.ctype = "washout_mud_losses" then
    let itype := issue.issue_type.getD "Washout/Mud Losses"
    [{ category := itype
       title := "Critical " ++ itype ++ " Issue Detected"
       impact_level := "High"
       description :=
         if itype = "Washout"
         then "Immediate action required to address potential washout in the drillstring."
         else "Immediate action required to address mud losses to the formation."
       action_items := issue.recommendations
       expected_benefits :=
         if itype = "Washout"
         then some ["Prevent complete failure of drillstring components",
           "Avoid fishing operations", "Maintain well control"]
         else some ["Prevent complete loss of returns",
           "Maintain well control", "Reduce fluid costs"] }]
  else []

/-- ROP-optimization part of `get_recommendations` (lines 267-306), appended
only when there is no critical issue of probability ≥ 0.8.  `fmt1` and `fmt0`
model Python's `"{x:.1f}"` and `"{x:.0f}"` formatting. -/
def ropRecs (fmt1 fmt0 : ℚ → String) (rop : RopResult)
    (sortedCriticals : List CriticalIssue) : List Recommendation :=
  match rop.recommended_parameters with
  | none => []
  | some params =>
    let noBlockingCritical :=
      match sortedCriticals with
      | [] => true
      | c :: _ => decide (c.probability < 8/10)
    if noBlockingCritical then
      let improvement := rop.expected_rop_improvement.getD 0
      let paramRecs :=
        (match params.WOB with
         | some w => ["Adjust Weight on Bit to " ++ fmt1 w ++ " klbs"]
         | none => []) ++
        (match params.RPM with
         | some v => ["Adjust Rotary Speed to " ++ fmt0 v ++ " RPM"]
         | none => []) ++
        (match params.Flow_Rate with
         | some f => ["Maintain Flow Rate at " ++ fmt0 f ++ " gpm"]
         | none => []) ++
        rop.explanations.getD []
      [{ category := "ROP Optimization"
         title := "ROP Improvement Opportunity (" ++ fmt1 improvement ++ "%)"
         impact_level := if improvement > 15 then "Medium" else "Low"
         description := "Adjusting drilling parameters can improve Rate of Penetration by approximately " ++ fmt1 improvement ++ "%."
         action_items := paramRecs
         expected_benefits := some
           ["Increase ROP by approximately " ++ fmt1 improvement ++ "%",
            "Reduce overall drilling time", "Improve drilling efficiency"] }]
    else []

/-- One step of the moderate-risk loop (lines 309-357) for a risk agent:
probability in `[0.4, 0.7)` and the agent not already among the critical
issues. -/
def moderateRecs (criticals : List CriticalIssue)
    (agentType : String) (res : AgentResult) : List Recommendation :=
  if 4/10 ≤ res.probability ∧ res.probability < 7/10 then
    if criticals.any (fun ci => ci.ctype = agentType) then []
    else if agentType = "mechanical_sticking" then
      [{ category := "Mechanical Sticking"
         title := "Moderate Risk of Mechanical Sticking"
         impact_level := "Medium"
         description := "Preventive action recommended to address potential mechanical sticking issues."
         action_items := res.recommendations
         expected_benefits := none }]
    else if agentType = "differential_sticking" then
      [{ category := "Differential Sticking"
         title := "Moderate Risk of Differential Sticking"
         impact_level := "Medium"
         description := "Preventive action recommended to address potential differential sticking issues."
         action_items := res.recommendations
         expected_benefits := none }]
    else if agentType = "hole_cleaning" then
      [{ category := "Hole Cleaning"
         title := "Moderate Hole Cleaning Concerns"
         impact_level := "Medium"
         description := "Preventive action recommended to improve hole cleaning efficiency."
         action_items := res.recommendations
         expected_benefits := none }]
    else if agentType = "washout_mud_losses" then
      [{ category := res.issue_type.getD "Washout/Mud Losses"
         title := "Moderate " ++ res.issue_type.getD "Washout/Loss" ++ " Risk"
         impact_level := "Medium"
         description := "Preventive action recommended to address potential " ++
           res.issue_type.getD "washout or mud loss" ++ " issues."
         action_items := res.recommendations
         expected_benefits := none }]
    else []
  else []

/-- `get_recommendations(predictions)` (`orchestrator.py` lines 142-360).
The guard `any(pred is None for pred in predictions.values())` (lines
154-156) returns the empty list as soon as any agent's entry is `None`;
otherwise critical issues (sorted by descending probability), then the
ROP suggestion, then the moderate-risk loop over the dictionary's insertion
order mechanical → differential → hole-cleaning → washout (ROP skipped). -/
def getRecommendations (fmt1 fmt0 : ℚ → String)
    (preds : Predictions) : List Recommendation :=
  match preds.mechanical_sticking, preds.differential_sticking,
        preds.hole_cleaning, preds.washout_mud_losses,
        preds.rop_optimization with
  | some m, some d, some h, some w, some rop =>
    let sortedCriticals := sortByProbabilityDesc (criticalIssues m d h w)
    (sortedCriticals.flatMap criticalIssueRecs) ++
    ropRecs fmt1 fmt0 rop sortedCriticals ++
    moderateRecs sortedCriticals "mechanical_sticking" m ++
    moderateRecs sortedCriticals "differential_sticking" d ++
    moderateRecs sortedCriticals "hole_cleaning" h ++
    moderateRecs sortedCriticals "washout_mud_losses" w
  | _, _, _, _, _ => []

namespace DataProcessor

/-- Differential-pressure derivation of `process_data` (`data_processor.py`
lines 72-85): hydrostatic pressure `ecd * 0.052 * depth` minus a pore
pressure of `0.465 * depth`, with dictionary defaults `ECD = 12.5` and
`depth = 10000`; computed unconditionally and not clamped.  (The `except`
fallback 500 of line 85 is unreachable for numeric inputs.) -/
def differentialPressure (r : Reading) : ℚ :=
  r.ECD.getD (25/2) * (52/1000) * r.depth.getD 10000 -
    (465/1000) * r.depth.getD 10000

/-- Drag-factor derivation (lines 57-70): hook load over the theoretical
string weight `depth * 0.95 * 30 / 1000` klbs, guarded by `max(1, ·)`;
1.0 when either key is absent. -/
def dragFactor (r : Reading) : ℚ :=
  match r.Hook_Load, r.depth with
  | some hookLoad, some depth =>
    hookLoad / max 1 (depth * (95/100) * 30 / 1000)
  | _, _ => 1

/-- Hole-cleaning-index derivation (lines 87-95): `ecd / max(ecd - 0.2, 8.0)`
where `ecd` is the value `ECD.get` produced in the differential-pressure
block (default 12.5). -/
def holeCleaningIndex (r : Reading) : ℚ :=
  r.ECD.getD (25/2) / max (r.ECD.getD (25/2) - 2/10) 8

end DataProcessor

/-- Per-agent entry of `config_manager.get_default_config()['ml_agents']`
(`config_manager.py` lines 43-71). -/
structure AgentSettings where
  enabled : Bool
  threshold : ℚ
  sensitivity : ℚ
deriving DecidableEq

/-- The `ml_agents` section of the default configuration
(`config_manager.py` lines 43-71); the ROP entry additionally carries
`aggressiveness = 0.3`. -/
structure MlAgentsConfig where
  enabled : Bool
  mechanical_sticking : AgentSettings
  differential_sticking : AgentSettings
  hole_cleaning : AgentSettings
  washout_mud_losses : AgentSettings
  rop_optimization : AgentSettings
  rop_aggressiveness : ℚ
deriving DecidableEq

/-- Default ML-agent configuration values of `get_default_config`. -/
def defaultMlAgentsConfig : MlAgentsConfig :=
  { enabled := true
    mechanical_sticking := { enabled := true, threshold := 6/10, sensitivity := 8/10 }
    differential_sticking := { enabled := true, threshold := 65/100, sensitivity := 7/10 }
    hole_cleaning := { enabled := true, threshold := 65/100, sensitivity := 75/100 }
    washout_mud_losses := { enabled := true, threshold := 7/10, sensitivity := 8/10 }
    rop_optimization := { enabled := true, threshold := 0, sensitivity := 5/10 }
    rop_aggressiveness := 3/10 }

/-! Shared helper lemmas about the final `min(1.0, max(0.0, ·))` clamp and
the shape of the agent bodies. -/

theorem clip01_nonneg (x : ℚ) : 0 ≤ min 1 (max 0 x) :=
  le_min (by norm_num) (le_max_left 0 x)

theorem clip01_le_one (x : ℚ) : min 1 (max 0 x) ≤ 1 := min_le_left 1 _

theorem MechanicalStickingAgent.mechBody_probability (r : Reading) :
    (MechanicalStickingAgent.body r).probability =
      min 1 (max 0 (MechanicalStickingAgent.weightedSum r)) := rfl

theorem DifferentialStickingAgent.diffBody_probability (r : Reading) :
    (DifferentialStickingAgent.body r).probability =
      min 1 (max 0 (DifferentialStickingAgent.weightedSum r)) := rfl

theorem HoleCleaningAgent.holeBody_probability (npStd : List ℚ → ℚ) (r : Reading) :
    (HoleCleaningAgent.body npStd r).probability =
      min 1 (max 0 (HoleCleaningAgent.weightedSum npStd r)) := rfl

theorem WashoutMudLossesAgent.washBody_probability (npStd : List ℚ → ℚ)
    (rng : ℚ) (r : Reading) :
    (WashoutMudLossesAgent.body npStd rng r).probability =
      min 1 (max 0 (WashoutMudLossesAgent.weightedSum npStd rng r)) := rfl

theorem MechanicalStickingAgent.mechGenRecs_ne_nil
    (p : ℚ) (factors : List String) :
    MechanicalStickingAgent.generateRecommendations p factors ≠ [] := by
  unfold MechanicalStickingAgent.generateRecommendations
  repeat' split
  all_goals simp

theorem DifferentialStickingAgent.diffGenRecs_ne_nil
    (p : ℚ) (factors : List String) :
    DifferentialStickingAgent.generateRecommendations p factors ≠ [] := by
  unfold DifferentialStickingAgent.generateRecommendations
  repeat' split
  all_goals simp

theorem HoleCleaningAgent.holeGenRecs_ne_nil
    (p : ℚ) (factors : List String) :
    HoleCleaningAgent.generateRecommendations p factors ≠ [] := by
  unfold HoleCleaningAgent.generateRecommendations
  repeat' split
  all_goals simp

theorem WashoutMudLossesAgent.washGenRecs_ne_nil
    (p : ℚ) (factors : List String) (issue : String) :
    WashoutMudLossesAgent.generateRecommendations p factors issue ≠ [] := by
  unfold WashoutMudLossesAgent.generateRecommendations
  repeat' split
  all_goals simp

theorem MechanicalStickingAgent.mechPredictRecs_ne_nil
    (input : AgentInput) :
    (MechanicalStickingAgent.predict input).recommendations ≠ [] := by
  cases input with
  | valid r => exact MechanicalStickingAgent.mechGenRecs_ne_nil _ _
  | malformed => simp [MechanicalStickingAgent.predict,
      MechanicalStickingAgent.errorResult]

theorem DifferentialStickingAgent.diffPredictRecs_ne_nil
    (input : AgentInput) :
    (DifferentialStickingAgent.predict input).recommendations ≠ [] := by
  cases input with
  | valid r => exact DifferentialStickingAgent.diffGenRecs_ne_nil _ _
  | malformed => simp [DifferentialStickingAgent.predict,
      DifferentialStickingAgent.errorResult]

theorem HoleCleaningAgent.holePredictRecs_ne_nil
    (npStd : List ℚ → ℚ) (input : AgentInput) :
    (HoleCleaningAgent.predict npStd input).recommendations ≠ [] := by
  cases input with
  | valid r => exact HoleCleaningAgent.holeGenRecs_ne_nil _ _
  | malformed => simp [HoleCleaningAgent.predict, HoleCleaningAgent.errorResult]

theorem WashoutMudLossesAgent.washPredictRecs_ne_nil
    (npStd : List ℚ → ℚ) (rng : ℚ) (input : AgentInput) :
    (WashoutMudLossesAgent.predict npStd rng input).recommendations ≠ [] := by
  cases input with
  | valid r => exact WashoutMudLossesAgent.washGenRecs_ne_nil _ _ _
  | malformed => simp [WashoutMudLossesAgent.predict,
      WashoutMudLossesAgent.errorResult]

/-- C1: for every input (valid or not), each risk agent's `predict` returns
a result whose probability lies in the closed interval `[0, 1]`: on a valid
reading the weighted combination is clamped by `min(1.0, max(0.0, ·))`, and
the error fallback reports probability `0`. -/
theorem C1_probability_in_unit_interval (npStd : List ℚ → ℚ) (rng : ℚ)
    (input : AgentInput) :
    (0 ≤ (MechanicalStickingAgent.predict input).probability ∧
      (MechanicalStickingAgent.predict input).probability ≤ 1) ∧
    (0 ≤ (DifferentialStickingAgent.predict input).probability ∧
      (DifferentialStickingAgent.predict input).probability ≤ 1) ∧
    (0 ≤ (HoleCleaningAgent.predict npStd input).probability ∧
      (HoleCleaningAgent.predict npStd input).probability ≤ 1) ∧
    (0 ≤ (WashoutMudLossesAgent.predict npStd rng input).probability ∧
      (WashoutMudLossesAgent.predict npStd rng input).probability ≤ 1) := by
  cases input with
  | valid r =>
    exact ⟨⟨clip01_nonneg _, clip01_le_one _⟩, ⟨clip01_nonneg _, clip01_le_one _⟩,
      ⟨clip01_nonneg _, clip01_le_one _⟩, ⟨clip01_nonneg _, clip01_le_one _⟩⟩
  | malformed =>
    refine ⟨⟨?_, ?_⟩, ⟨?_, ?_⟩, ⟨?_, ?_⟩, ⟨?_, ?_⟩⟩ <;> norm_num
      [MechanicalStickingAgent.predict, MechanicalStickingAgent.errorResult,
       DifferentialStickingAgent.predict, DifferentialStickingAgent.errorResult,
       HoleCleaningAgent.predict, HoleCleaningAgent.errorResult,
       WashoutMudLossesAgent.predict, WashoutMudLossesAgent.errorResult]

/-- C2: agents never raise to the caller.  In one cycle each agent is
applied to its own input, so each result is a function of that input alone
(first conjunct: a fault injected into one agent cannot change another
agent's result); every result carries a non-empty recommendations list; and
an input that makes an agent's body raise yields the `except`-branch result
with probability `0.0` and the explanatory factor string. -/
theorem C2_fault_isolation (npStd : List ℚ → ℚ) (rng : ℚ)
    (mechIn diffIn holeIn washIn : AgentInput) :
    ((runAgents npStd rng mechIn diffIn holeIn washIn).mechanical_sticking =
        MechanicalStickingAgent.predict mechIn ∧
      (runAgents npStd rng mechIn diffIn holeIn washIn).differential_sticking =
        DifferentialStickingAgent.predict diffIn ∧
      (runAgents npStd rng mechIn diffIn holeIn washIn).hole_cleaning =
        HoleCleaningAgent.predict npStd holeIn ∧
      (runAgents npStd rng mechIn diffIn holeIn washIn).washout_mud_losses =
        WashoutMudLossesAgent.predict npStd rng washIn) ∧
    ((runAgents npStd rng mechIn diffIn holeIn washIn).mechanical_sticking.recommendations ≠ [] ∧
      (runAgents npStd rng mechIn diffIn holeIn washIn).differential_sticking.recommendations ≠ [] ∧
      (runAgents npStd rng mechIn diffIn holeIn washIn).hole_cleaning.recommendations ≠ [] ∧
      (runAgents npStd rng mechIn diffIn holeIn washIn).washout_mud_losses.recommendations ≠ []) ∧
    (mechIn = .malformed →
      (runAgents npStd rng mechIn diffIn holeIn washIn).mechanical_sticking.probability = 0 ∧
      (runAgents npStd rng mechIn diffIn holeIn washIn).mechanical_sticking.contributing_factors =
        ["Error in prediction model"]) ∧
    (diffIn = .malformed →
      (runAgents npStd rng mechIn diffIn holeIn washIn).differential_sticking.probability = 0 ∧
      (runAgents npStd rng mechIn diffIn holeIn washIn).differential_sticking.contributing_factors =
        ["Error in prediction model"]) ∧
    (holeIn = .malformed →
      (runAgents npStd rng mechIn diffIn holeIn washIn).hole_cleaning.probability = 0 ∧
      (runAgents npStd rng mechIn diffIn holeIn washIn).hole_cleaning.contributing_factors =
        ["Error in prediction model"]) ∧
    (washIn = .malformed →
      (runAgents npStd rng mechIn diffIn holeIn washIn).washout_mud_losses.probability = 0 ∧
      (runAgents npStd rng mechIn diffIn holeIn washIn).washout_mud_losses.contributing_factors =
        ["Error in prediction model"] ∧
      (runAgents npStd rng mechIn diffIn holeIn washIn).washout_mud_losses.issue_type =
        some "Unknown") := by
  refine ⟨⟨rfl, rfl, rfl, rfl⟩,
    ⟨MechanicalStickingAgent.mechPredictRecs_ne_nil mechIn,
     DifferentialStickingAgent.diffPredictRecs_ne_nil diffIn,
     HoleCleaningAgent.holePredictRecs_ne_nil npStd holeIn,
     WashoutMudLossesAgent.washPredictRecs_ne_nil npStd rng washIn⟩,
    ?_, ?_, ?_, ?_⟩ <;> intro h <;> subst h <;>
  simp [runAgents, MechanicalStickingAgent.predict,
    MechanicalStickingAgent.errorResult, DifferentialStickingAgent.predict,
    DifferentialStickingAgent.errorResult, HoleCleaningAgent.predict,
    HoleCleaningAgent.errorResult, WashoutMudLossesAgent.predict,
    WashoutMudLossesAgent.errorResult]

/-- Witness for C2 at a concrete cycle: the mechanical-sticking input is
malformed, the washout input too, and both yield the documented fallback
while the others are the normal-path results. -/
theorem C2_fault_isolation_witness :
    (runAgents (fun _ => 0) 0 .malformed (.valid emptyReading)
        (.valid emptyReading) .malformed).mechanical_sticking.probability = 0 ∧
    (runAgents (fun _ => 0) 0 .malformed (.valid emptyReading)
        (.valid emptyReading) .malformed).differential_sticking =
      DifferentialStickingAgent.predict (.valid emptyReading) ∧
    (runAgents (fun _ => 0) 0 .malformed (.valid emptyReading)
        (.valid emptyReading) .malformed).washout_mud_losses.issue_type =
      some "Unknown" :=
  ⟨((C2_fault_isolation (fun _ => 0) 0 .malformed (.valid emptyReading)
      (.valid emptyReading) .malformed).2.2.1 rfl).1,
   (C2_fault_isolation (fun _ => 0) 0 .malformed (.valid emptyReading)
      (.valid emptyReading) .malformed).1.2.1,
   ((C2_fault_isolation (fun _ => 0) 0 .malformed (.valid emptyReading)
      (.valid emptyReading) .malformed).2.2.2.2.2 rfl).2.2⟩

/-- C3 counterexample: the washout/mud-losses scoring is not deterministic
in the reading alone.  On the very same (empty) processed reading, the
simulated return-flow draw 0.85 yields probability 3/20 and issue type
"Mud Losses", while the draw 1.0 yields probability 0 and issue type
"Washout". -/
theorem C3_washout_nondeterministic :
    (WashoutMudLossesAgent.predict (fun _ => 0) (85/100)
        (.valid emptyReading)).probability = 3/20 ∧
    (WashoutMudLossesAgent.predict (fun _ => 0) 1
        (.valid emptyReading)).probability = 0 ∧
    (WashoutMudLossesAgent.predict (fun _ => 0) (85/100)
        (.valid emptyReading)).issue_type = some "Mud Losses" ∧
    (WashoutMudLossesAgent.predict (fun _ => 0) 1
        (.valid emptyReading)).issue_type = some "Washout" ∧
    ((3 : ℚ)/20 ≠ 0) := by
  have hpd : WashoutMudLossesAgent.pressureDropFeature emptyReading = 0 := rfl
  have hpa : WashoutMudLossesAgent.pressureAnomalyFeature (fun _ => 0) emptyReading = 0 := rfl
  have htf : WashoutMudLossesAgent.torqueFluctuationFeature (fun _ => 0) emptyReading = 0 := rfl
  refine ⟨?_, ?_, ?_, ?_, by norm_num⟩ <;>
    norm_num [WashoutMudLossesAgent.predict, WashoutMudLossesAgent.body,
      WashoutMudLossesAgent.weightedSum, WashoutMudLossesAgent.flowReturnFeature,
      WashoutMudLossesAgent.issueType, hpd, hpa, htf]

/-- C3 (amended): within one cycle, the mechanical-sticking,
differential-sticking and hole-cleaning results are functions of the
processed reading alone — two cycles with different ambient random draws
agree on them — while the washout/mud-losses result is a function of the
reading together with the simulated return-flow draw, so it is reproducible
only when that draw is fixed. -/
theorem C3_determinism_amended (npStd : List ℚ → ℚ) (rng₁ rng₂ : ℚ)
    (input : AgentInput) :
    (runAgents npStd rng₁ input input input input).mechanical_sticking =
      (runAgents npStd rng₂ input input input input).mechanical_sticking ∧
    (runAgents npStd rng₁ input input input input).differential_sticking =
      (runAgents npStd rng₂ input input input input).differential_sticking ∧
    (runAgents npStd rng₁ input input input input).hole_cleaning =
      (runAgents npStd rng₂ input input input input).hole_cleaning ∧
    (rng₁ = rng₂ →
      (runAgents npStd rng₁ input input input input).washout_mud_losses =
        (runAgents npStd rng₂ input input input input).washout_mud_losses) :=
  ⟨rfl, rfl, rfl, fun h => by rw [h]⟩

/-- Witness for C3 (amended) at the empty reading and two distinct draws. -/
theorem C3_determinism_amended_witness :
    (runAgents (fun _ => 0) (85/100) (.valid emptyReading) (.valid emptyReading)
        (.valid emptyReading) (.valid emptyReading)).mechanical_sticking =
      (runAgents (fun _ => 0) 1 (.valid emptyReading) (.valid emptyReading)
        (.valid emptyReading) (.valid emptyReading)).mechanical_sticking ∧
    (runAgents (fun _ => 0) 1 (.valid emptyReading) (.valid emptyReading)
        (.valid emptyReading) (.valid emptyReading)).washout_mud_losses =
      (runAgents (fun _ => 0) 1 (.valid emptyReading) (.valid emptyReading)
        (.valid emptyReading) (.valid emptyReading)).washout_mud_losses :=
  ⟨(C3_determinism_amended (fun _ => 0) (85/100) 1 (.valid emptyReading)).1,
   (C3_determinism_amended (fun _ => 0) 1 1 (.valid emptyReading)).2.2.2 rfl⟩

theorem riskAlertBlock_ne_nil_iff (fmt2 : ℚ → String) (ts alertType msgHead : String)
    (res : AgentResult) (threshold : ℚ) :
    riskAlertBlock fmt2 ts alertType msgHead (some res) threshold ≠ [] ↔
      res.probability ≥ threshold := by
  by_cases hp : res.probability ≥ threshold <;>
    simp [riskAlertBlock, hp]

theorem washoutAlerts_ne_nil_iff (fmt2 : ℚ → String) (ts : String)
    (res : AgentResult) (threshold : ℚ) :
    washoutAlerts fmt2 ts (some res) threshold ≠ [] ↔
      res.probability ≥ threshold := by
  by_cases hp : res.probability ≥ threshold <;>
    simp [washoutAlerts, hp]

/-- C4: the orchestrator creates an alert for an agent exactly when the
agent's probability is greater than or equal to its configured threshold
(`>=` comparison: the boundary case fires), and `evaluate_predictions` is
the concatenation of the four per-agent blocks. -/
theorem C4_threshold_boundary (fmt2 : ℚ → String) (ts : String)
    (preds : Predictions) (thresholds : Thresholds) :
    (∀ res, preds.mechanical_sticking = some res →
      (mechanicalAlerts fmt2 ts preds.mechanical_sticking
          thresholds.mechanical_sticking ≠ [] ↔
        res.probability ≥ thresholds.mechanical_sticking)) ∧
    (∀ res, preds.differential_sticking = some res →
      (differentialAlerts fmt2 ts preds.differential_sticking
          thresholds.differential_sticking ≠ [] ↔
        res.probability ≥ thresholds.differential_sticking)) ∧
    (∀ res, preds.hole_cleaning = some res →
      (holeCleaningAlerts fmt2 ts preds.hole_cleaning
          thresholds.hole_cleaning ≠ [] ↔
        res.probability ≥ thresholds.hole_cleaning)) ∧
    (∀ res, preds.washout_mud_losses = some res →
      (washoutAlerts fmt2 ts preds.washout_mud_losses
          thresholds.washout_mud_losses ≠ [] ↔
        res.probability ≥ thresholds.washout_mud_losses)) ∧
    evaluatePredictions fmt2 ts preds thresholds =
      mechanicalAlerts fmt2 ts preds.mechanical_sticking thresholds.mechanical_sticking ++
      differentialAlerts fmt2 ts preds.differential_sticking thresholds.differential_sticking ++
      holeCleaningAlerts fmt2 ts preds.hole_cleaning thresholds.hole_cleaning ++
      washoutAlerts fmt2 ts preds.washout_mud_losses thresholds.washout_mud_losses := by
  refine ⟨?_, ?_, ?_, ?_, rfl⟩ <;> intro res h <;> rw [h]
  · exact riskAlertBlock_ne_nil_iff fmt2 ts _ _ res _
  · exact riskAlertBlock_ne_nil_iff fmt2 ts _ _ res _
  · exact riskAlertBlock_ne_nil_iff fmt2 ts _ _ res _
  · exact washoutAlerts_ne_nil_iff fmt2 ts res _

/-- A fixed agent result with probability exactly at the default
mechanical-sticking threshold 0.6, used to witness the boundary case. -/
def boundaryRes : AgentResult :=
  { probability := 6/10
    contributing_factors := ["Elevated drag factor"]
    issue_type := none
    recommendations := ["Reduce WOB and RPM temporarily"] }

/-- A predictions dictionary whose mechanical-sticking entry sits exactly at
its threshold and whose other entries are absent (`None`). -/
def boundaryPreds : Predictions :=
  { mechanical_sticking := some boundaryRes
    differential_sticking := none
    hole_cleaning := none
    washout_mud_losses := none
    rop_optimization := none }

/-- The default thresholds of `get_default_config`, as a `Thresholds`
record. -/
def defaultThresholds : Thresholds :=
  { mechanical_sticking := defaultMlAgentsConfig.mechanical_sticking.threshold
    differential_sticking := defaultMlAgentsConfig.differential_sticking.threshold
    hole_cleaning := defaultMlAgentsConfig.hole_cleaning.threshold
    washout_mud_losses := defaultMlAgentsConfig.washout_mud_losses.threshold }

/-- Witness for C4: a probability exactly equal to the default 0.6 threshold
generates a mechanical-sticking alert. -/
theorem C4_threshold_boundary_witness :
    mechanicalAlerts (fun _ => "") "" boundaryPreds.mechanical_sticking
      defaultThresholds.mechanical_sticking ≠ [] :=
  ((C4_threshold_boundary (fun _ => "") "" boundaryPreds defaultThresholds).1
    boundaryRes rfl).mpr (by norm_num [boundaryRes, defaultThresholds,
      defaultMlAgentsConfig])

/-- C5: every alert the orchestrator creates carries the severity given by
the uniform tiering of its agent's probability, and that tiering maps
probabilities ≥ 0.8 to HIGH, ≥ 0.6 and < 0.8 to MEDIUM, and all others to
LOW. -/
theorem C5_severity_tiers (fmt2 : ℚ → String) (ts : String)
    (preds : Predictions) (thresholds : Thresholds) :
    (∀ res a, preds.mechanical_sticking = some res →
      a ∈ mechanicalAlerts fmt2 ts preds.mechanical_sticking
        thresholds.mechanical_sticking →
      a.severity = severityOf res.probability) ∧
    (∀ res a, preds.differential_sticking = some res →
      a ∈ differentialAlerts fmt2 ts preds.differential_sticking
        thresholds.differential_sticking →
      a.severity = severityOf res.probability) ∧
    (∀ res a, preds.hole_cleaning = some res →
      a ∈ holeCleaningAlerts fmt2 ts preds.hole_cleaning
        thresholds.hole_cleaning →
      a.severity = severityOf res.probability) ∧
    (∀ res a, preds.washout_mud_losses = some res →
      a ∈ washoutAlerts fmt2 ts preds.washout_mud_losses
        thresholds.washout_mud_losses →
      a.severity = severityOf res.probability) ∧
    (∀ p : ℚ, (8/10 ≤ p → severityOf p = "HIGH") ∧
      (6/10 ≤ p ∧ p < 8/10 → severityOf p = "MEDIUM") ∧
      (p < 6/10 → severityOf p = "LOW")) := by
  refine ⟨?_, ?_, ?_, ?_, ?_⟩
  · intro res a h ha
    rw [h] at ha
    simp only [mechanicalAlerts, riskAlertBlock] at ha
    split at ha
    · simp at ha
      rw [ha]
    · simp at ha
  · intro res a h ha
    rw [h] at ha
    simp only [differentialAlerts, riskAlertBlock] at ha
    split at ha
    · simp at ha
      rw [ha]
    · simp at ha
  · intro res a h ha
    rw [h] at ha
    simp only [holeCleaningAlerts, riskAlertBlock] at ha
    split at ha
    · simp at ha
      rw [ha]
    · simp at ha
  · intro res a h ha
    rw [h] at ha
    simp only [washoutAlerts] at ha
    split at ha
    · simp at ha
      rw [ha]
    · simp at ha
  · intro p
    refine ⟨fun h => ?_, fun h => ?_, fun h => ?_⟩ <;>
      unfold severityOf <;> split_ifs <;> first | rfl | linarith [h]

/-- Witness for C5 at the tier boundaries 0.85, 0.65 and 0.2. -/
theorem C5_severity_tiers_witness :
    severityOf (85/100) = "HIGH" ∧ severityOf (65/100) = "MEDIUM" ∧
      severityOf (2/10) = "LOW" :=
  ⟨((C5_severity_tiers (fun _ => "") "" boundaryPreds defaultThresholds).2.2.2.2
      (85/100)).1 (by norm_num),
   ((C5_severity_tiers (fun _ => "") "" boundaryPreds defaultThresholds).2.2.2.2
      (65/100)).2.1 ⟨by norm_num, by norm_num⟩,
   ((C5_severity_tiers (fun _ => "") "" boundaryPreds defaultThresholds).2.2.2.2
      (2/10)).2.2 (by norm_num)⟩

/-- C6 counterexample: on the empty reading the weighted sub-feature
combination of the mechanical-sticking agent is 5/26, and that is exactly
the probability `predict` returns; the claimed multiplicative sensitivity
adjustment with the configured default sensitivity 0.8 would instead give
1/4.  No agent reads the configured sensitivity. -/
theorem C6_sensitivity_not_applied :
    MechanicalStickingAgent.weightedSum emptyReading = 5/26 ∧
    (MechanicalStickingAgent.predict (.valid emptyReading)).probability = 5/26 ∧
    defaultMlAgentsConfig.mechanical_sticking.sensitivity = 8/10 ∧
    min 1 (max 0 ((5/26) *
      (1 + (defaultMlAgentsConfig.mechanical_sticking.sensitivity - 5/10)))) = 1/4 ∧
    ((5 : ℚ)/26 ≠ 1/4) := by
  have hw : MechanicalStickingAgent.weightedSum emptyReading = 5/26 := by
    norm_num [MechanicalStickingAgent.weightedSum,
      MechanicalStickingAgent.torqueFeature, MechanicalStickingAgent.dragFeature,
      MechanicalStickingAgent.fluctuationFeature,
      MechanicalStickingAgent.historicalFeature, emptyReading]
  refine ⟨hw, ?_, rfl, by norm_num [defaultMlAgentsConfig], by norm_num⟩
  rw [show (MechanicalStickingAgent.predict (.valid emptyReading)).probability =
    min 1 (max 0 (MechanicalStickingAgent.weightedSum emptyReading)) from rfl, hw]
  norm_num

/-- C6 (amended): the configured per-agent sensitivity is never applied;
every agent's returned probability on a valid reading is exactly the
weighted sub-feature combination re-clamped to `[0,1]`, with no
sensitivity-dependent factor. -/
theorem C6_probability_is_clamped_weighted_sum (npStd : List ℚ → ℚ)
    (rng : ℚ) (r : Reading) :
    (MechanicalStickingAgent.predict (.valid r)).probability =
      min 1 (max 0 (MechanicalStickingAgent.weightedSum r)) ∧
    (DifferentialStickingAgent.predict (.valid r)).probability =
      min 1 (max 0 (DifferentialStickingAgent.weightedSum r)) ∧
    (HoleCleaningAgent.predict npStd (.valid r)).probability =
      min 1 (max 0 (HoleCleaningAgent.weightedSum npStd r)) ∧
    (WashoutMudLossesAgent.predict npStd rng (.valid r)).probability =
      min 1 (max 0 (WashoutMudLossesAgent.weightedSum npStd rng r)) :=
  ⟨rfl, rfl, rfl, rfl⟩

theorem DifferentialStickingAgent.predict_valid_probability (r : Reading) :
    (DifferentialStickingAgent.predict (.valid r)).probability =
      min 1 (max 0 (DifferentialStickingAgent.weightedSum r)) := rfl

theorem DifferentialStickingAgent.diffPressureFeature_update (r : Reading) (d : ℚ) :
    DifferentialStickingAgent.diffPressureFeature
      { r with differential_pressure := some d } = min 1 (d / 600) := rfl

theorem DifferentialStickingAgent.stationaryFeature_update (r : Reading) (d : ℚ) :
    DifferentialStickingAgent.stationaryFeature
      { r with differential_pressure := some d } =
      DifferentialStickingAgent.stationaryFeature r := rfl

theorem DifferentialStickingAgent.filterCakeFeature_update (r : Reading) (d : ℚ) :
    DifferentialStickingAgent.filterCakeFeature
      { r with differential_pressure := some d } =
      DifferentialStickingAgent.filterCakeFeature r := rfl

/-- C7: the differential-sticking probability is monotone in differential
pressure — two readings identical except for a larger
`differential_pressure` never give a smaller probability. -/
theorem C7_monotone_in_differential_pressure (r : Reading) (dp₁ dp₂ : ℚ)
    (h : dp₁ ≤ dp₂) :
    (DifferentialStickingAgent.predict
        (.valid { r with differential_pressure := some dp₁ })).probability ≤
    (DifferentialStickingAgent.predict
        (.valid { r with differential_pressure := some dp₂ })).probability := by
  rw [DifferentialStickingAgent.predict_valid_probability,
    DifferentialStickingAgent.predict_valid_probability]
  unfold DifferentialStickingAgent.weightedSum
  rw [DifferentialStickingAgent.diffPressureFeature_update,
    DifferentialStickingAgent.diffPressureFeature_update,
    DifferentialStickingAgent.stationaryFeature_update,
    DifferentialStickingAgent.stationaryFeature_update,
    DifferentialStickingAgent.filterCakeFeature_update,
    DifferentialStickingAgent.filterCakeFeature_update]
  have h1 : dp₁ / 600 ≤ dp₂ / 600 := by gcongr
  have h2 : min 1 (dp₁ / 600) ≤ min 1 (dp₂ / 600) := min_le_min le_rfl h1
  refine min_le_min le_rfl (max_le_max le_rfl ?_)
  linarith

/-- Witness for C7: raising the differential pressure of the empty reading
from 200 psi to 1200 psi does not decrease the reported probability. -/
theorem C7_monotone_witness :
    (200 : ℚ) ≤ 1200 ∧
    (DifferentialStickingAgent.predict
        (.valid { emptyReading with differential_pressure := some 200 })).probability ≤
    (DifferentialStickingAgent.predict
        (.valid { emptyReading with differential_pressure := some 1200 })).probability :=
  ⟨by norm_num,
   C7_monotone_in_differential_pressure emptyReading 200 1200 (by norm_num)⟩

/-- C8 counterexample: with `Flow_Rate = 0` the hole-cleaning ROP/flow
ratio falls back to 1.0 — not 0 — so the flow-rate sub-feature resolves
to `min(1.0, 1.0/0.15) = 1`. -/
theorem C8_hole_cleaning_fallback_is_one :
    HoleCleaningAgent.ropFlowRatio { emptyReading with Flow_Rate := some 0 } = 1 ∧
    HoleCleaningAgent.ropFlowFeature { emptyReading with Flow_Rate := some 0 } = 1 ∧
    ((1 : ℚ) ≠ 0) := by
  refine ⟨?_, ?_, by norm_num⟩ <;>
    norm_num [HoleCleaningAgent.ropFlowRatio, HoleCleaningAgent.ropFlowFeature,
      emptyReading]

/-- C8 (amended): a reading with `Flow_Rate = 0` makes neither agent raise
(both still return results with non-empty recommendations); the
differential-sticking flow factor resolves to the fallback 0, but the
hole-cleaning ROP/flow ratio falls back to 1.0, making its flow-rate
sub-feature 1, not 0. -/
theorem C8_flow_rate_zero_amended (npStd : List ℚ → ℚ) (r : Reading)
    (h : r.Flow_Rate = some 0) :
    DifferentialStickingAgent.flowCakeBase r = 0 ∧
    HoleCleaningAgent.ropFlowRatio r = 1 ∧
    HoleCleaningAgent.ropFlowFeature r = 1 ∧
    (DifferentialStickingAgent.predict (.valid r)).recommendations ≠ [] ∧
    (HoleCleaningAgent.predict npStd (.valid r)).recommendations ≠ [] := by
  have hr : HoleCleaningAgent.ropFlowRatio r = 1 := by
    unfold HoleCleaningAgent.ropFlowRatio
    rw [h]
    norm_num
  refine ⟨?_, hr, ?_,
    DifferentialStickingAgent.diffPredictRecs_ne_nil _,
    HoleCleaningAgent.holePredictRecs_ne_nil npStd _⟩
  · unfold DifferentialStickingAgent.flowCakeBase
    rw [h]
    norm_num
  · unfold HoleCleaningAgent.ropFlowFeature
    rw [hr]
    norm_num

/-- Witness for C8 (amended) at the concrete zero-flow reading. -/
theorem C8_flow_rate_zero_witness :
    ({ emptyReading with Flow_Rate := some 0 } : Reading).Flow_Rate = some 0 ∧
    DifferentialStickingAgent.flowCakeBase
      { emptyReading with Flow_Rate := some 0 } = 0 :=
  ⟨rfl, (C8_flow_rate_zero_amended (fun _ => 0)
    { emptyReading with Flow_Rate := some 0 } rfl).1⟩

/-- C9 counterexample: the derived differential pressure uses the pore
gradient 0.465 with no `max(0, ·)` clamp and no positivity guard, so a
reading with ECD 8 ppg and depth 1000 ft yields -49 psi — negative, and
different from the claimed formula's value `max(0, 0.052·8·1000 − 0.45·1000)
= 0`. -/
theorem C9_negative_differential_pressure :
    DataProcessor.differentialPressure
      { emptyReading with ECD := some 8, depth := some 1000 } = -49 ∧
    max 0 ((52/1000) * 8 * 1000 - (45/100) * 1000) = (0 : ℚ) ∧
    ((-49 : ℚ) < 0) := by
  refine ⟨?_, by norm_num, by norm_num⟩
  norm_num [DataProcessor.differentialPressure, emptyReading]

/-- C9 (amended): `process_data` derives
`differential_pressure = ECD·0.052·depth − 0.465·depth` unconditionally,
with dictionary defaults ECD = 12.5 and depth = 10000 and no clamp; for a
positive depth the result is nonnegative exactly when ECD ≥ 465/52 ppg, so
it can be negative. -/
theorem C9_differential_pressure_amended (r : Reading) :
    DataProcessor.differentialPressure r =
      r.ECD.getD (25/2) * (52/1000) * r.depth.getD 10000 -
        (465/1000) * r.depth.getD 10000 ∧
    (∀ ecd depth : ℚ, 0 < depth →
      (0 ≤ DataProcessor.differentialPressure
          { emptyReading with ECD := some ecd, depth := some depth } ↔
        465/52 ≤ ecd)) := by
  refine ⟨rfl, fun ecd depth hd => ?_⟩
  have he : DataProcessor.differentialPressure
      { emptyReading with ECD := some ecd, depth := some depth } =
      ecd * (52/1000) * depth - (465/1000) * depth := rfl
  rw [he]
  constructor <;> intro h <;> nlinarith

/-- Witness for C9 (amended): at ECD 12 ppg and depth 1000 ft the criterion
holds and the derived pressure is nonnegative. -/
theorem C9_differential_pressure_witness :
    (0 : ℚ) < 1000 ∧
    (0 ≤ DataProcessor.differentialPressure
        { emptyReading with ECD := some 12, depth := some 1000 } ↔
      (465 : ℚ)/52 ≤ 12) :=
  ⟨by norm_num,
   (C9_differential_pressure_amended emptyReading).2 12 1000 (by norm_num)⟩

/-- An agent result above the 0.7 critical cutoff, used to exhibit the
orchestrator's all-or-nothing recommendation guard. -/
def criticalMechRes : AgentResult :=
  { probability := 3/4
    contributing_factors := []
    issue_type := none
    recommendations := ["Stop drilling and work pipe up and down"] }

/-- An agent result with probability 0 (below every cutoff). -/
def quietRes : AgentResult :=
  { probability := 0
    contributing_factors := []
    issue_type := none
    recommendations := ["Continue normal operations"] }

/-- A ROP result carrying no recommended parameters. -/
def emptyRopRes : RopResult :=
  { recommended_parameters := none
    expected_rop_improvement := none
    explanations := none }

/-- Predictions with every agent present: one critical mechanical-sticking
result, quiet results elsewhere. -/
def predsAllPresent : Predictions :=
  { mechanical_sticking := some criticalMechRes
    differential_sticking := some quietRes
    hole_cleaning := some quietRes
    washout_mud_losses := some quietRes
    rop_optimization := some emptyRopRes }

/-- The same predictions with the washout/mud-losses entry `None`. -/
def predsWashoutNone : Predictions :=
  { mechanical_sticking := some criticalMechRes
    differential_sticking := some quietRes
    hole_cleaning := some quietRes
    washout_mud_losses := none
    rop_optimization := some emptyRopRes }

/-- C10 counterexample: with the washout entry `None`,
`get_recommendations` returns the empty list, dropping the critical
mechanical-sticking entry it produces when all entries are present — it
does not merely skip the missing agent's contribution. -/
theorem C10_get_recommendations_all_or_nothing :
    getRecommendations (fun _ => "") (fun _ => "") predsWashoutNone = [] ∧
    (getRecommendations (fun _ => "") (fun _ => "") predsAllPresent).length = 1 ∧
    predsWashoutNone.mechanical_sticking = some criticalMechRes ∧
    (7/10 : ℚ) ≤ criticalMechRes.probability := by
  refine ⟨rfl, ?_, rfl, by norm_num [criticalMechRes]⟩
  norm_num [getRecommendations, predsAllPresent, criticalMechRes, quietRes,
    emptyRopRes, criticalIssues, sortByProbabilityDesc, List.mergeSort_singleton,
    ropRecs, moderateRecs, criticalIssueRecs]

theorem mechanicalAlerts_none (fmt2 : ℚ → String) (ts : String) (t : ℚ) :
    mechanicalAlerts fmt2 ts none t = [] := rfl

theorem differentialAlerts_none (fmt2 : ℚ → String) (ts : String) (t : ℚ) :
    differentialAlerts fmt2 ts none t = [] := rfl

theorem holeCleaningAlerts_none (fmt2 : ℚ → String) (ts : String) (t : ℚ) :
    holeCleaningAlerts fmt2 ts none t = [] := rfl

theorem washoutAlerts_none (fmt2 : ℚ → String) (ts : String) (t : ℚ) :
    washoutAlerts fmt2 ts none t = [] := rfl

theorem getRecommendations_eq_nil_of_none (fmt1 fmt0 : ℚ → String)
    (preds : Predictions) :
    (preds.mechanical_sticking = none ∨ preds.differential_sticking = none ∨
      preds.hole_cleaning = none ∨ preds.washout_mud_losses = none ∨
      preds.rop_optimization = none) →
    getRecommendations fmt1 fmt0 preds = [] := by
  obtain ⟨f1, f2, f3, f4, f5⟩ := preds
  intro h
  cases f1 <;> cases f2 <;> cases f3 <;> cases f4 <;> cases f5 <;>
    first
      | rfl
      | simp at h

/-- C10 (amended): a `None` agent result makes `evaluate_predictions` skip
exactly that agent's alert block, still producing the other agents' alerts;
`get_recommendations`, however, returns the empty list as soon as any
agent's entry — including ROP optimization — is `None`. -/
theorem C10_missing_result_amended (fmt2 fmt1 fmt0 : ℚ → String) (ts : String)
    (preds : Predictions) (thresholds : Thresholds) :
    (evaluatePredictions fmt2 ts { preds with mechanical_sticking := none } thresholds =
      differentialAlerts fmt2 ts preds.differential_sticking thresholds.differential_sticking ++
      holeCleaningAlerts fmt2 ts preds.hole_cleaning thresholds.hole_cleaning ++
      washoutAlerts fmt2 ts preds.washout_mud_losses thresholds.washout_mud_losses) ∧
    (evaluatePredictions fmt2 ts { preds with differential_sticking := none } thresholds =
      mechanicalAlerts fmt2 ts preds.mechanical_sticking thresholds.mechanical_sticking ++
      holeCleaningAlerts fmt2 ts preds.hole_cleaning thresholds.hole_cleaning ++
      washoutAlerts fmt2 ts preds.washout_mud_losses thresholds.washout_mud_losses) ∧
    (evaluatePredictions fmt2 ts { preds with hole_cleaning := none } thresholds =
      mechanicalAlerts fmt2 ts preds.mechanical_sticking thresholds.mechanical_sticking ++
      differentialAlerts fmt2 ts preds.differential_sticking thresholds.differential_sticking ++
      washoutAlerts fmt2 ts preds.washout_mud_losses thresholds.washout_mud_losses) ∧
    (evaluatePredictions fmt2 ts { preds with washout_mud_losses := none } thresholds =
      mechanicalAlerts fmt2 ts preds.mechanical_sticking thresholds.mechanical_sticking ++
      differentialAlerts fmt2 ts preds.differential_sticking thresholds.differential_sticking ++
      holeCleaningAlerts fmt2 ts preds.hole_cleaning thresholds.hole_cleaning) ∧
    (preds.mechanical_sticking = none → getRecommendations fmt1 fmt0 preds = []) ∧
    (preds.differential_sticking = none → getRecommendations fmt1 fmt0 preds = []) ∧
    (preds.hole_cleaning = none → getRecommendations fmt1 fmt0 preds = []) ∧
    (preds.washout_mud_losses = none → getRecommendations fmt1 fmt0 preds = []) ∧
    (preds.rop_optimization = none → getRecommendations fmt1 fmt0 preds = []) := by
  refine ⟨?_, ?_, ?_, ?_,
    fun h => getRecommendations_eq_nil_of_none fmt1 fmt0 preds (Or.inl h),
    fun h => getRecommendations_eq_nil_of_none fmt1 fmt0 preds (Or.inr (Or.inl h)),
    fun h => getRecommendations_eq_nil_of_none fmt1 fmt0 preds
      (Or.inr (Or.inr (Or.inl h))),
    fun h => getRecommendations_eq_nil_of_none fmt1 fmt0 preds
      (Or.inr (Or.inr (Or.inr (Or.inl h)))),
    fun h => getRecommendations_eq_nil_of_none fmt1 fmt0 preds
      (Or.inr (Or.inr (Or.inr (Or.inr h))))⟩ <;>
  simp [evaluatePredictions, mechanicalAlerts_none, differentialAlerts_none,
    holeCleaningAlerts_none, washoutAlerts_none]

/-- Witness for C10 (amended) at the concrete predictions with a `None`
washout entry. -/
theorem C10_missing_result_witness :
    predsWashoutNone.washout_mud_losses = none ∧
    getRecommendations (fun _ => "x") (fun _ => "x") predsWashoutNone = [] :=
  ⟨rfl, (C10_missing_result_amended (fun _ => "x") (fun _ => "x") (fun _ => "x")
    "" predsWashoutNone defaultThresholds).2.2.2.2.2.2.2.1 rfl⟩
